import Mathlib

/-!
Verification development for a digital-library CRUD backend.

The embedding below models the error-translation layers
(src/services/exceptions/), the generic persistence and service layers
(src/services/abc/), the book orchestration service
(src/services/services/book_service.py), the entity facades and the
S3 client wrappers (src/services/s3_service.py, src/services/crud/s3_crud.py),
as pure Lean functions.  Python exceptions become an explicit exception
value type; decorators that catch and re-raise become total functions on
`Except`; retry loops become fuel recursion (the fuel is the loop's
iteration count `max_retries + 1`, exactly as in the source).
-/

deriving instance DecidableEq for Except

namespace LibSys

/-- Service-layer exception kinds (service_exceptions.py).
`error` is the plain base class `ServiceError`. -/
inductive SvcKind
  | notFound
  | validation
  | integrity
  | temporary
  | operation
  | error
  deriving DecidableEq, Repr

/-- Persistence-layer exception kinds (crud_exceptions.py).
`operation` is the base class `CRUDOperationError`; all others subclass it. -/
inductive CrudExc
  | notFound
  | multipleResults
  | integrity
  | connection
  | retryable
  | operation
  deriving DecidableEq, Repr

/-- Storage-layer exception kinds (storage_exeptions.py).
`operation` is the base class `StorageOperationError`; all others
(including `connection`) subclass it. -/
inductive StorExc
  | notFound
  | accessDenied
  | invalidState
  | internal
  | connection
  | operation
  deriving DecidableEq, Repr

/-- An exception value as observed by the service-layer handlers:
either a CRUD exception, a storage exception, a service exception of some
kind, or any other Python exception. -/
inductive Exc
  | crud (e : CrudExc)
  | storage (e : StorExc)
  | service (k : SvcKind)
  | other
  deriving DecidableEq, Repr

/-- The `except (ServiceNotFoundError, ServiceIntegrityError,
ServiceValidationError): raise` tuple in `handle_service_errors`:
only these three service kinds pass through unchanged. -/
def isPassThroughSvc : SvcKind → Bool
  | .notFound => true
  | .integrity => true
  | .validation => true
  | _ => false

/-- One loop of `handle_service_errors` (service_exceptions.py, lines
242-289), with fuel = number of remaining loop iterations and the attempt
index as in `for attempt in range(max_retries + 1)`.  The body receives
the attempt index.  Clauses are matched in source order; note that
`CRUDNotFoundError`/`CRUDIntegrityError` are subclasses of
`CRUDOperationError` but are listed first, and any exception not matching
an earlier clause (including a plain `ServiceError`, `ServiceTemporaryError`,
`ServiceOperationError` or a storage exception) is caught by
`except Exception` and re-raised as a plain `ServiceError`. -/
def hseAux (maxRetries : Nat) (body : Nat → Except Exc α) :
    Nat → Nat → Except Exc α
  | _, 0 => .error (.service .error)
  | attempt, fuel + 1 =>
    match body attempt with
    | .ok a => .ok a
    | .error (.service k) =>
      if isPassThroughSvc k then .error (.service k) else .error (.service .error)
    | .error (.crud .notFound) => .error (.service .notFound)
    | .error (.crud .integrity) => .error (.service .integrity)
    | .error (.crud .connection) =>
      if attempt < maxRetries then hseAux maxRetries body (attempt + 1) fuel
      else .error (.service .temporary)
    | .error (.crud .retryable) =>
      if attempt < maxRetries then hseAux maxRetries body (attempt + 1) fuel
      else .error (.service .temporary)
    | .error (.crud _) => .error (.service .operation)
    | .error _ => .error (.service .error)

/-- The `handle_service_errors(max_retries, ...)` decorator: run the body
for `max_retries + 1` attempts, translating CRUD exceptions to service
exceptions and retrying connection-class CRUD failures. -/
def handle_service_errors (maxRetries : Nat) (body : Nat → Except Exc α) :
    Except Exc α :=
  hseAux maxRetries body 0 (maxRetries + 1)

/-- The `handle_storage_service_errors` decorator (service_exceptions.py,
lines 101-203).  Clauses in source order: `StorageNotFoundError`,
`StorageAccessDeniedError`, `StorageInvalidStateError`,
`(StorageInternalError, StorageOperationError)`, `StorageConnectionError`,
`Exception`.  Since `StorageConnectionError` subclasses
`StorageOperationError`, a connection error is caught by the
`(StorageInternalError, StorageOperationError)` clause and converted to
`ServiceOperationError`; the retry clause below it is unreachable, so the
wrapper never iterates and no fuel is needed.  Any non-storage exception
(including service exceptions raised by the body) falls to
`except Exception` and becomes `ServiceOperationError`. -/
def handle_storage_service_errors (body : Except Exc α) : Except Exc α :=
  match body with
  | .ok a => .ok a
  | .error (.storage .notFound) => .error (.service .notFound)
  | .error (.storage .accessDenied) => .error (.service .validation)
  | .error (.storage .invalidState) => .error (.service .integrity)
  | .error (.storage _) => .error (.service .operation)
  | .error _ => .error (.service .operation)

/-- Low-level exceptions seen by `handle_storage_errors`
(storage_exeptions.py): a botocore `ClientError` carrying an error code,
a `FileNotFoundError`, the builtin `ConnectionError`/`TimeoutError`, or
anything else. -/
inductive BotoExc
  | clientError (code : String)
  | fileNotFound
  | connError
  | timeout
  | other
  deriving DecidableEq, Repr

/-- Mapping of a `ClientError` code to a storage exception kind
(storage_exeptions.py, lines 81-104). -/
def classifyClientError (code : String) : StorExc :=
  if code = "NoSuchKey" ∨ code = "NoSuchBucket" then .notFound
  else if code = "AccessDenied" then .accessDenied
  else if code = "InvalidObjectState" then .invalidState
  else if code = "InternalError" then .internal
  else .operation

/-- One loop of `handle_storage_errors` (storage_exeptions.py, lines
74-123): `ClientError` is classified by code; `FileNotFoundError` maps to
not-found; builtin `ConnectionError`/`TimeoutError` retries while
`attempt < max_retries` (with a sleep of `retry_delay * (attempt + 1)`)
and otherwise surfaces as `StorageConnectionError`; any other exception
becomes `StorageOperationError`.  Fuel 0 is the post-loop
`raise StorageConnectionError(...)`. -/
def hstAux (maxRetries : Nat) (body : Nat → Except BotoExc α) :
    Nat → Nat → Except StorExc α
  | _, 0 => .error .connection
  | attempt, fuel + 1 =>
    match body attempt with
    | .ok a => .ok a
    | .error (.clientError code) => .error (classifyClientError code)
    | .error .fileNotFound => .error .notFound
    | .error .connError =>
      if attempt < maxRetries then hstAux maxRetries body (attempt + 1) fuel
      else .error .connection
    | .error .timeout =>
      if attempt < maxRetries then hstAux maxRetries body (attempt + 1) fuel
      else .error .connection
    | .error .other => .error .operation

/-- The `handle_storage_errors(max_retries=3, ...)` decorator. -/
def handle_storage_errors (maxRetries : Nat) (body : Nat → Except BotoExc α) :
    Except StorExc α :=
  hstAux maxRetries body 0 (maxRetries + 1)

/-- Lift a storage-boundary result into the exception universe seen by the
service layer. -/
def liftStorage : Except StorExc α → Except Exc α
  | .ok a => .ok a
  | .error e => .error (.storage e)

/-- Lift a persistence-boundary result into the exception universe seen by
the service layer. -/
def liftCrud : Except CrudExc α → Except Exc α
  | .ok a => .ok a
  | .error e => .error (.crud e)

/-- SQLAlchemy exceptions seen by `handle_db_errors` (crud_exceptions.py).
Each carries the message the handler inspects. -/
inductive DbExc
  | noResultFound
  | multipleResultsFound
  | integrityError (origMsg : String)
  | operationalError (msg : String)
  | dbapiError (msg : String)
  | sqlalchemyError (msg : String)
  | otherError (msg : String)
  deriving DecidableEq, Repr

/-- Observable trace of one `handle_db_errors` run: how many times the
wrapped function was invoked, how many rollbacks were issued, and the
successive sleep multipliers (the sleep before retry `attempt + 1` is
`retry_delay * (attempt + 1)`; we record the factor `attempt + 1`). -/
structure DbTrace where
  calls : Nat
  rollbacks : Nat
  sleeps : List Nat
  deriving DecidableEq, Repr

/-- Whether `pat` is a prefix of `l` (character lists). -/
def isPrefixList : List Char → List Char → Bool
  | [], _ => true
  | _ :: _, [] => false
  | a :: as, b :: bs => a = b && isPrefixList as bs

/-- Whether `pat` occurs contiguously inside `l` (character lists):
Python's substring membership operator. -/
def infixList (pat : List Char) : List Char → Bool
  | [] => pat.isEmpty
  | b :: t => isPrefixList pat (b :: t) || infixList pat t

/-- The membership test `"deadlock" in str(e).lower()`
(crud_exceptions.py, line 126): substring containment on the lowercased
message. -/
def containsDeadlock (msg : String) : Bool :=
  infixList "deadlock".data (msg.data.map Char.toLower)

/-- One loop of `handle_db_errors` (crud_exceptions.py, lines 96-137).
`remaining` counts the loop iterations still allowed after this one, so
the attempt index is `maxRetries - remaining` and the run starts at
`remaining = maxRetries` (giving `max_retries + 1` iterations, as in
`for attempt in range(max_retries + 1)`).  Every except clause first rolls
the session back.  `NoResultFound`, `MultipleResultsFound`,
`IntegrityError` and `SQLAlchemyError`/other exceptions are translated and
re-raised immediately; `(OperationalError, DBAPIError)` retries (after a
sleep of `retry_delay * (attempt + 1)`) only when the message contains
"deadlock" and `attempt < max_retries`, and otherwise surfaces at once as
`CRUDConnectionError`. -/
def hdbAux (maxRetries : Nat) (body : Nat → Except DbExc α) :
    Nat → Nat → Nat → List Nat → Except CrudExc α × DbTrace
  | remaining, calls, rollbacks, sleeps =>
    let attempt := maxRetries - remaining
    let calls := calls + 1
    match body attempt with
    | .ok a => (.ok a, ⟨calls, rollbacks, sleeps⟩)
    | .error .noResultFound => (.error .notFound, ⟨calls, rollbacks + 1, sleeps⟩)
    | .error .multipleResultsFound =>
      (.error .multipleResults, ⟨calls, rollbacks + 1, sleeps⟩)
    | .error (.integrityError _) =>
      (.error .integrity, ⟨calls, rollbacks + 1, sleeps⟩)
    | .error (.operationalError msg) =>
      match remaining with
      | r + 1 =>
        if containsDeadlock msg then
          hdbAux maxRetries body r calls (rollbacks + 1) (sleeps ++ [attempt + 1])
        else (.error .connection, ⟨calls, rollbacks + 1, sleeps⟩)
      | 0 => (.error .connection, ⟨calls, rollbacks + 1, sleeps⟩)
    | .error (.dbapiError msg) =>
      match remaining with
      | r + 1 =>
        if containsDeadlock msg then
          hdbAux maxRetries body r calls (rollbacks + 1) (sleeps ++ [attempt + 1])
        else (.error .connection, ⟨calls, rollbacks + 1, sleeps⟩)
      | 0 => (.error .connection, ⟨calls, rollbacks + 1, sleeps⟩)
    | .error (.sqlalchemyError _) =>
      (.error .operation, ⟨calls, rollbacks + 1, sleeps⟩)
    | .error (.otherError _) =>
      (.error .operation, ⟨calls, rollbacks + 1, sleeps⟩)

/-- The `handle_db_errors(max_retries, retry_delay)` decorator, returning
the translated result together with the observable trace. -/
def handle_db_errors (maxRetries : Nat) (body : Nat → Except DbExc α) :
    Except CrudExc α × DbTrace :=
  hdbAux maxRetries body maxRetries 0 0 []

/-!
Generic service layer (src/services/abc/abstract_service.py).

Each method body is modelled as a function of the outcome of the CRUD
call it wraps; the `try`/`except` chain of the body is then a match on
that outcome, and the `@handle_service_errors()` decorator is applied
around it.  Crucially, an exception raised inside the body's `try` block
(such as the `raise ServiceNotFoundError` for an absent record) is itself
subject to the body's own except clauses before reaching the decorator.
-/

/-- Body of `AbstractService.get` (abstract_service.py, lines 128-165).
The CRUD call returns `none` for an absent id (the persistence layer's
absent marker).  The body raises `ServiceNotFoundError` on `none`, but
that raise happens inside the same `try`, so it is caught by the body's
`except Exception` clause (it is not a `CRUDNotFoundError`) and re-raised
as a plain `ServiceError`. -/
def absGetBody (crudRes : Except Exc (Option ρ)) : Except Exc ρ :=
  match crudRes with
  | .ok (some r) => .ok r
  | .ok none => .error (.service .error)
  | .error (.crud .notFound) => .error (.service .notFound)
  | .error _ => .error (.service .error)

/-- `AbstractService.get`: the body wrapped in `@handle_service_errors()`
(decorator defaults: `max_retries = 1`). -/
def absServiceGet (crudRes : Except Exc (Option ρ)) : Except Exc ρ :=
  handle_service_errors 1 (fun _ => absGetBody crudRes)

/-- Body of `AbstractService.create` (abstract_service.py, lines 87-126):
`CRUDIntegrityError` is re-raised as `ServiceIntegrityError` (from an
except clause, so it reaches the decorator intact); any other exception
becomes a plain `ServiceError`. -/
def absCreateBody (crudRes : Except Exc ρ) : Except Exc ρ :=
  match crudRes with
  | .ok r => .ok r
  | .error (.crud .integrity) => .error (.service .integrity)
  | .error _ => .error (.service .error)

/-- `AbstractService.create`: the body wrapped in
`@handle_service_errors()`. -/
def absServiceCreate (crudRes : Except Exc ρ) : Except Exc ρ :=
  handle_service_errors 1 (fun _ => absCreateBody crudRes)

/-- Body of `AbstractService.get_all` (abstract_service.py, lines
282-338), together with a flag recording whether the persistence query
was issued.  The pagination checks run before the `try` block, so a
`ServiceValidationError` they raise reaches the decorator unwrapped;
any exception from the CRUD call is wrapped into a plain `ServiceError`
by the body's `except Exception`. -/
def absGetAllBody (crudRes : Except Exc (List ρ)) (limit offset : Int) :
    Except Exc (List ρ) × Bool :=
  if limit > 1000 then (.error (.service .validation), false)
  else if offset < 0 then (.error (.service .validation), false)
  else
    match crudRes with
    | .ok rs => (.ok rs, true)
    | .error _ => (.error (.service .error), true)

/-- `AbstractService.get_all`: the body wrapped in
`@handle_service_errors()`, keeping the queried flag. -/
def absServiceGetAll (crudRes : Except Exc (List ρ)) (limit offset : Int) :
    Except Exc (List ρ) × Bool :=
  let body := absGetAllBody crudRes limit offset
  (handle_service_errors 1 (fun _ => body.1), body.2)

/-!
Book service (src/services/services/book_service.py).

Its read methods are stacked `@handle_service_errors()` over
`@handle_storage_service_errors()` over the body, so an exception raised
by the body passes through the storage-error translator first.
-/

/-- Body of `BookService.get` (book_service.py, lines 316-337): raises
`ServiceNotFoundError` for an absent book and re-raises it from its own
`except Exception` guard (the `isinstance` check keeps the kind). -/
def bookGetBody (crudRes : Except Exc (Option ρ)) : Except Exc ρ :=
  match crudRes with
  | .ok (some r) => .ok r
  | .ok none => .error (.service .notFound)
  | .error _ => .error (.service .operation)

/-- `BookService.get`: body under `@handle_storage_service_errors()` under
`@handle_service_errors()`.  The storage translator's `except Exception`
turns the `ServiceNotFoundError` into `ServiceOperationError`, which the
outer decorator then wraps into a plain `ServiceError`. -/
def bookServiceGet (crudRes : Except Exc (Option ρ)) : Except Exc ρ :=
  handle_service_errors 1
    (fun _ => handle_storage_service_errors (bookGetBody crudRes))

/-- Body of `BookService.get_all` (book_service.py, lines 341-374) with
the queried flag.  Unlike the generic service, the guard is
`limit < 1 or offset < 0`; a limit above 1000 is not rejected.  The
`ServiceValidationError` is re-raised as itself by the body's
`except Exception` guard. -/
def bookGetAllBody (crudRes : Except Exc (List ρ)) (limit offset : Int) :
    Except Exc (List ρ) × Bool :=
  if limit < 1 ∨ offset < 0 then (.error (.service .validation), false)
  else
    match crudRes with
    | .ok rs => (.ok rs, true)
    | .error _ => (.error (.service .operation), true)

/-- `BookService.get_all`: body under `@handle_storage_service_errors()`
under `@handle_service_errors()`. -/
def bookServiceGetAll (crudRes : Except Exc (List ρ)) (limit offset : Int) :
    Except Exc (List ρ) × Bool :=
  let body := bookGetAllBody crudRes limit offset
  (handle_service_errors 1 (fun _ => handle_storage_service_errors body.1),
   body.2)

/-!
Entity creation with a unique name column (models.py declares
`Author.name` and `Genre.name` with `unique=True`).  The database is
modelled as the list of names already present.
-/

/-- The database-level insert under the unique constraint on the name
column: a duplicate name makes the commit raise `IntegrityError` whose
message mentions the unique constraint. -/
def dbCreateUnique (store : List String) (name : String) :
    Except DbExc (String × List String) :=
  if name ∈ store then
    .error (.integrityError "duplicate key value violates unique constraint")
  else .ok (name, name :: store)

/-- `AbstractCRUD.create` specialised to the name store: the insert runs
under `@handle_db_errors()` (decorator default `max_retries = 1`). -/
def crudCreateUnique (store : List String) (name : String) :
    Except CrudExc (String × List String) :=
  (handle_db_errors 1 (fun _ => dbCreateUnique store name)).1

/-- The inherited `AbstractService.create` applied to the name store. -/
def absServiceCreateUnique (store : List String) (name : String) :
    Except Exc (String × List String) :=
  absServiceCreate (liftCrud (crudCreateUnique store name))

/-- The guard `not author_data.name.strip()`: the stripped string is
empty exactly when every character of the name is whitespace. -/
def stripIsEmpty (name : String) : Bool :=
  name.data.all fun c => c.isWhitespace

/-- Body of `AuthorService.create_with_validation` (author_service.py,
lines 105-152).  The empty-name check runs before the `try` block, so its
`ServiceValidationError` reaches the decorator unwrapped.  Inside the
`try`, a duplicate name raises `ServiceIntegrityError`, but that raise is
caught by the body's own `except Exception` and re-raised as a plain
`ServiceError`; likewise any failure of `get_by_name` or of the CRUD
create.  The success path has no `return` statement, so the Python
function returns `None`. -/
def createWithValidationBody (name : String)
    (existingRes : Except Exc (Option String)) (createRes : Except Exc String) :
    Except Exc (Option String) :=
  if stripIsEmpty name then .error (.service .validation)
  else
    match existingRes with
    | .error _ => .error (.service .error)
    | .ok (some _) => .error (.service .error)
    | .ok none =>
      match createRes with
      | .ok _ => .ok none
      | .error _ => .error (.service .error)

/-- `AuthorService.create_with_validation` on the name store: the body
under `@handle_service_errors(max_retries=3)`, with `get_by_name`
resolved against the store. -/
def authorCreateWithValidation (store : List String) (name : String) :
    Except Exc (Option String) :=
  handle_service_errors 3 (fun _ =>
    createWithValidationBody name
      (.ok (if name ∈ store then some name else none))
      (.ok name))

/-!
Persistence-layer partial update (src/services/abc/Abstcract_CRUD.py,
lines 291-314).  A row is an association list from column names to values;
the update payload is the result of `update_data.model_dump(exclude_unset=True)`,
i.e. exactly the explicitly-set fields.
-/

/-- A database row: column name to integer value. -/
abbrev Row := List (String × Int)

/-- The effect of `update(model).where(id == id).values(**update_values)`
on one row: every column listed in the payload is overwritten, every other
column keeps its value. -/
def applyUpdate (row upd : Row) : Row :=
  row.map fun fv =>
    match upd.lookup fv.1 with
    | some w => (fv.1, w)
    | none => fv

/-- `AbstractCRUD.update`: fetch the row by id; return the absent marker
when the id does not exist; otherwise apply exactly the explicitly-set
fields and commit.  Returns the projected result and the updated store. -/
def crudUpdate (store : Nat → Option Row) (id : Nat) (upd : Row) :
    Option Row × (Nat → Option Row) :=
  match store id with
  | none => (none, store)
  | some row =>
    let row2 := applyUpdate row upd
    (some row2, fun j => if j = id then some row2 else store j)

/-!
Legacy S3 client (src/services/s3_service.py) and the book storage built
on it (src/services/book_storage.py).  The observation of one
`upload_file` call is the `extra_args` dict the method builds and the
keyword arguments actually passed to `put_object`.
-/

/-- A keyword argument value of an S3 request. -/
inductive S3Param
  | body (b : String)
  | bucket (s : String)
  | key (s : String)
  | contentType (s : String)
  | metadata (m : List (String × String))
  deriving DecidableEq, Repr

/-- What one `S3Client.upload_file` call does: the `extra_args` dict it
assembles and the keyword arguments of the `put_object` request it sends. -/
structure S3UploadObservation where
  extraArgs : List (String × S3Param)
  putCall : List (String × S3Param)
  deriving DecidableEq, Repr

/-- `S3Client.upload_file` (s3_service.py, lines 62-97): `extra_args`
collects `ContentType` and `Metadata` when given, and `put_object` is
invoked with `Body=file_obj, Bucket=self.bucket_name, Key=s3_key` —
`extra_args` is never passed on. -/
def s3ClientUploadFile (bucket fileObj s3Key : String)
    (contentType : Option String) (metadata : Option (List (String × String))) :
    S3UploadObservation :=
  let extraArgs :=
    (match contentType with
     | some c => [("ContentType", S3Param.contentType c)]
     | none => []) ++
    (match metadata with
     | some m => [("Metadata", S3Param.metadata m)]
     | none => [])
  { extraArgs := extraArgs
    putCall := [("Body", S3Param.body fileObj), ("Bucket", S3Param.bucket bucket),
                ("Key", S3Param.key s3Key)] }

/-- `BookStorage.upload_book_file` (book_storage.py, lines 24-47): derives
the extension from the original filename, builds the key
`books/{book_id}/{file_type}.{ext}`, guesses the MIME type (modelled as a
parameter, since `mimetypes` is a library call) and delegates to
`S3Client.upload_file` with that content type and no metadata. -/
def bookStorageUploadBookFile (bucket bookId fileType fileObj : String)
    (originalFilename : String) (guessedMime : Option String) :
    S3UploadObservation :=
  let ext := ((originalFilename.splitOn ".").getLastD "").toLower
  let s3Key := "books/" ++ bookId ++ "/" ++ fileType ++ "." ++ ext
  s3ClientUploadFile bucket fileObj s3Key guessedMime none

/-!
Transliteration (src/utils/translit.py): `str.translate` with the
`TRANSLIT` table maps each Cyrillic character to its Latin replacement and
leaves every other character unchanged.
-/

/-- The `TRANSLIT` character table: replacement string per mapped
character, the character itself otherwise. -/
def translitChar (c : Char) : String :=
  match c with
  | 'а' => "a" | 'б' => "b" | 'в' => "v" | 'г' => "g" | 'д' => "d"
  | 'е' => "e" | 'ё' => "yo" | 'ж' => "zh" | 'з' => "z" | 'и' => "i"
  | 'й' => "y" | 'к' => "k" | 'л' => "l" | 'м' => "m" | 'н' => "n"
  | 'о' => "o" | 'п' => "p" | 'р' => "r" | 'с' => "s" | 'т' => "t"
  | 'у' => "u" | 'ф' => "f" | 'х' => "kh" | 'ц' => "ts" | 'ч' => "ch"
  | 'ш' => "sh" | 'щ' => "shch" | 'ъ' => "" | 'ы' => "y" | 'ь' => ""
  | 'э' => "e" | 'ю' => "yu" | 'я' => "ya"
  | 'А' => "A" | 'Б' => "B" | 'В' => "V" | 'Г' => "G" | 'Д' => "D"
  | 'Е' => "E" | 'Ё' => "Yo" | 'Ж' => "Zh" | 'З' => "Z" | 'И' => "I"
  | 'Й' => "Y" | 'К' => "K" | 'Л' => "L" | 'М' => "M" | 'Н' => "N"
  | 'О' => "O" | 'П' => "P" | 'Р' => "R" | 'С' => "S" | 'Т' => "T"
  | 'У' => "U" | 'Ф' => "F" | 'Х' => "Kh" | 'Ц' => "Ts" | 'Ч' => "Ch"
  | 'Ш' => "Sh" | 'Щ' => "Shch" | 'Ъ' => "" | 'Ы' => "Y" | 'Ь' => ""
  | 'Э' => "E" | 'Ю' => "Yu" | 'Я' => "Ya"
  | ch => String.singleton ch

/-- `translit`: apply the table to every character of the string. -/
def translit (s : String) : String :=
  String.join (s.data.map translitChar)

/-- `translit_dict`: transliterate the values of the dictionary, keeping
the keys unchanged (all values here are strings). -/
def translit_dict (d : List (String × String)) : List (String × String) :=
  d.map fun kv => (kv.1, translit kv.2)

/-!
Book service upload helper (`BookService._upload_file`, book_service.py,
lines 104-179).
-/

/-- An uploaded file as the service sees it. -/
structure PyFile where
  filename : String
  content : String
  size : Nat
  headers : List (String × String)
  deriving DecidableEq, Repr

/-- The check applied to one header pair:
`all(ord(char) < 128 for char in f"{key}{value}")`. -/
def asciiPair (k v : String) : Bool :=
  (k ++ v).data.all fun c => c.toNat < 128

/-- One call issued to `self._s3.upload_file`. -/
structure UploadCall where
  file_key : String
  content_type : String
  metadata : List (String × String)
  deriving DecidableEq, Repr

/-- `BookService._upload_file`, observed as its outcome and the list of
storage upload calls it issued.  The MIME type detected from the content
is a parameter (`python-magic` is a library call).  After the successful
MIME detection the headers are scanned; any pair with a non-ASCII
character raises `ServiceValidationError`, which the body's
`except ServiceValidationError: raise` clause re-raises intact, before
any storage call.  Otherwise the storage upload runs with the
transliterated headers as metadata; a falsy upload result or any raised
exception becomes `ServiceOperationError` via the body's
`except Exception`.  The subsequent `book_files_crud.create` of the
BookFile row is modelled as succeeding (it happens after the storage
call and no claim depends on its failure). -/
def bookUploadFile (mime : String) (file : PyFile) (s3Key : String)
    (uploadOk : Bool) : Except Exc String × List UploadCall :=
  if file.headers.all (fun kv => asciiPair kv.1 kv.2) then
    let call : UploadCall :=
      { file_key := s3Key, content_type := mime,
        metadata := translit_dict file.headers }
    if uploadOk then (.ok s3Key, [call])
    else (.error (.service .operation), [call])
  else (.error (.service .validation), [])

/-!
Book orchestration (`BookService.create` / `BookService.delete`,
book_service.py).  System state: the Book rows, the BookFile rows and the
object-storage keys.  Deleting a Book row cascades to its BookFile rows
(`book_files.book_id` is declared `ForeignKey("books.id", ondelete="CASCADE")`
in models.py) but never touches the object store.
-/

/-- One BookFile row: row id, owning book id, storage key. -/
structure FileRow where
  fid : Nat
  bookId : Nat
  storageKey : String
  deriving DecidableEq, Repr

/-- Combined relational + object-storage state. -/
structure SysState where
  books : List Nat
  fileRows : List FileRow
  s3Objects : List String
  deriving DecidableEq, Repr

/-- The BookFile rows of one book. -/
def filesOf (st : SysState) (bid : Nat) : List FileRow :=
  st.fileRows.filter fun r => r.bookId = bid

/-- `BookCRUD.get_by_id` on this state: the absent marker for a missing
id. -/
def bookCrudGetById (st : SysState) (id : Nat) : Option Nat :=
  if id ∈ st.books then some id else none

/-- `BookCRUD.delete`: remove the Book row (the database cascade also
removes its BookFile rows); storage objects are untouched.  Returns
whether a row was removed. -/
def bookCrudDelete (st : SysState) (id : Nat) : Bool × SysState :=
  if id ∈ st.books then
    (true,
     { books := st.books.filter fun b => b ≠ id
       fileRows := st.fileRows.filter fun r => r.bookId ≠ id
       s3Objects := st.s3Objects })
  else (false, st)

/-- `S3CRUD.download_file` availability on this state: a key is
retrievable exactly when the object is present. -/
def s3Retrievable (st : SysState) (key : String) : Bool :=
  key ∈ st.s3Objects

/-- `BookService._create_s3_key`: the key is `{book_id}/{file_name}`. -/
def createS3Key (bookId : Nat) (fileName : String) : String :=
  toString bookId ++ "/" ++ fileName

/-- Effect of one fully successful `_upload_file` run: the object is
stored and a BookFile row is created. -/
def applyUploadEffect (st : SysState) (fid bid : Nat) (key : String) :
    SysState :=
  { books := st.books
    fileRows := st.fileRows ++ [⟨fid, bid, key⟩]
    s3Objects := st.s3Objects ++ [key] }

/-- The outer `except` of `BookService.create` (book_service.py, lines
302-314): a `ServiceValidationError` is re-raised, everything else is
wrapped into `ServiceOperationError`. -/
def bookCreateWrapKind (k : SvcKind) : Exc :=
  if k = .validation then .service .validation else .service .operation

/-- `BookService.create` (book_service.py, lines 193-314) from the point
where the Book row is persisted.  `newId` is the id the database assigns
to the new Book row; `pdfRes`/`coverRes` is `none` when the corresponding
`_upload_file` task succeeds (adding its storage object and BookFile row)
and `some k` when it raises a service exception of kind `k` without
effect.  `asyncio.gather` joins both tasks, so the succeeding task's
effects persist even when the other fails; on any upload failure the
handler deletes the already-created Book row (`book_crud.delete`) and
re-raises, and the outer `except` then maps the exception kind. -/
def bookServiceCreate (st : SysState) (newId pdfFid coverFid : Nat)
    (pdf cover : PyFile) (pdfRes coverRes : Option SvcKind) :
    Except Exc Nat × SysState :=
  let st1 : SysState :=
    { books := st.books ++ [newId], fileRows := st.fileRows,
      s3Objects := st.s3Objects }
  let pdfKey := createS3Key newId pdf.filename
  let coverKey := createS3Key newId cover.filename
  let st2 := if pdfRes = none then applyUploadEffect st1 pdfFid newId pdfKey else st1
  let st3 :=
    if coverRes = none then applyUploadEffect st2 coverFid newId coverKey else st2
  match pdfRes, coverRes with
  | none, none => (.ok newId, st3)
  | some k, _ => (.error (bookCreateWrapKind k), (bookCrudDelete st3 newId).2)
  | none, some k => (.error (bookCreateWrapKind k), (bookCrudDelete st3 newId).2)

/-- An observable step of `BookService.delete`. -/
inductive DelEvent
  | s3Del (key : String)
  | fileRowDel (fid : Nat)
  | bookRowDel (bid : Nat)
  deriving DecidableEq, Repr

/-- `BookService.delete` (book_service.py, lines 580-625): fetch the book
(through `self.get`, whose decorator stack surfaces a plain `ServiceError`
when the book is absent), collect its BookFile rows, run the gathered
delete tasks — one storage delete per stored key and one row delete per
BookFile row, in the order the task list is built — and only after the
join delete the Book row itself.  The result, the final state and the
ordered event trace are returned. -/
def bookServiceDelete (st : SysState) (id : Nat) :
    Except Exc Unit × SysState × List DelEvent :=
  match bookCrudGetById st id with
  | none => (.error (.service .error), st, [])
  | some _ =>
    let files := filesOf st id
    let keys := files.map fun f => f.storageKey
    let fids := files.map fun f => f.fid
    let evs := (files.map fun f => DelEvent.s3Del f.storageKey) ++
      (files.map fun f => DelEvent.fileRowDel f.fid)
    let st1 : SysState :=
      { books := st.books
        fileRows := st.fileRows.filter fun r => r.fid ∉ fids
        s3Objects := st.s3Objects.filter fun k => k ∉ keys }
    let st2 := (bookCrudDelete st1 id).2
    (.ok (), st2, evs ++ [DelEvent.bookRowDel id])

/-! Concrete inputs used by the closed counterexamples and witnesses. -/

/-- An empty system state. -/
def demoEmptyState : SysState := ⟨[], [], []⟩

/-- A valid PDF upload. -/
def demoPdf : PyFile := ⟨"book.pdf", "pdfcontent", 10, []⟩

/-- A valid cover upload. -/
def demoCover : PyFile := ⟨"cover.jpg", "imgcontent", 10, []⟩

/-- A state holding one book with two stored files. -/
def demoDeleteState : SysState :=
  ⟨[7], [FileRow.mk 1 7 "7/a.pdf", FileRow.mk 2 7 "7/c.jpg"],
   ["7/a.pdf", "7/c.jpg"]⟩

/-- The persistence store holding one entity with fields A = 1 and B = 2
under id 1. -/
def demoRowStore : Nat → Option Row :=
  fun j => if j = 1 then some [("A", 1), ("B", 2)] else none

/-!
Theorems.  Shared helper lemmas come first, then one theorem per claim
(with its counterexample and witness where applicable).
-/

/-- Two successive filters on the owning book id, the first keeping the
other books and the second keeping this book, leave nothing. -/
lemma filter_bookId_eq_after_ne (l : List FileRow) (id : Nat) :
    ((l.filter fun r => r.bookId ≠ id).filter fun r => r.bookId = id) = [] := by
  induction l with
  | nil => rfl
  | cons a t ih =>
    by_cases h : a.bookId = id <;> simp [List.filter_cons, h, ih]

/-- A column absent from the update payload keeps its value. -/
lemma lookup_applyUpdate_of_unset (row upd : Row) (f : String)
    (h : upd.lookup f = none) :
    (applyUpdate row upd).lookup f = row.lookup f := by
  induction row with
  | nil => rfl
  | cons gv t ih =>
    obtain ⟨g, v⟩ := gv
    by_cases hfg : f = g
    · subst hfg
      simp [applyUpdate, List.lookup, h]
    · have hbeq : (f == g) = false := beq_eq_false_iff_ne.mpr hfg
      cases hug : upd.lookup g <;>
        simp [applyUpdate, List.lookup, hbeq, hug] <;>
        simpa [applyUpdate] using ih

/-- A column present in the update payload takes the payload's value. -/
lemma lookup_applyUpdate_of_set (row upd : Row) (f : String) (w : Int)
    (hu : upd.lookup f = some w) (hr : (row.lookup f).isSome) :
    (applyUpdate row upd).lookup f = some w := by
  induction row with
  | nil => simp [List.lookup] at hr
  | cons gv t ih =>
    obtain ⟨g, v⟩ := gv
    by_cases hfg : f = g
    · subst hfg
      simp [applyUpdate, List.lookup, hu]
    · have hbeq : (f == g) = false := beq_eq_false_iff_ne.mpr hfg
      have hr2 : (t.lookup f).isSome := by
        simpa [List.lookup, hbeq] using hr
      cases hug : upd.lookup g <;>
        simp [applyUpdate, List.lookup, hbeq, hug] <;>
        simpa [applyUpdate] using ih hr2

/-- A run of `handle_db_errors` whose body always fails with an
operational error whose message contains "deadlock" exhausts all
iterations: one call, one rollback and one linearly growing sleep per
iteration, surfacing `CRUDConnectionError` at the end. -/
lemma hdbAux_deadlock_run {α : Type} (maxRetries : Nat)
    (body : Nat → Except DbExc α) (msg : String)
    (hd : containsDeadlock msg = true)
    (hb : ∀ n, body n = .error (.operationalError msg)) :
    ∀ r, r ≤ maxRetries → ∀ calls rb sl,
      hdbAux maxRetries body r calls rb sl =
        (.error .connection,
         ⟨calls + r + 1, rb + r + 1,
          sl ++ (List.range r).map fun i => maxRetries - r + i + 1⟩) := by
  intro r
  induction r with
  | zero =>
    intro _ calls rb sl
    simp [hdbAux, hb]
  | succ R ih =>
    intro hle calls rb sl
    rw [hdbAux]
    simp only [hb, hd, if_true]
    rw [ih (Nat.le_of_succ_le hle) (calls + 1) (rb + 1)
      (sl ++ [maxRetries - (R + 1) + 1])]
    simp only [Prod.mk.injEq, DbTrace.mk.injEq]
    refine ⟨trivial, by omega, by omega, ?_⟩
    simp only [List.append_assoc]
    congr 1
    rw [List.range_succ_eq_map, List.map_cons, List.map_map]
    have h0 : maxRetries - (R + 1) + 1 = maxRetries - R := by omega
    have hfun : ((fun i => maxRetries - R + i + 1) : Nat → Nat) =
        (fun i => maxRetries - (R + 1) + i + 1) ∘ Nat.succ := by
      funext i
      simp only [Function.comp_apply, Nat.succ_eq_add_one]
      omega
    rw [h0, hfun]
    rfl

/-- C1: for an id with no record (the CRUD layer returns the absent
marker `None`), `AbstractService.get` does not surface the NotFound
service kind: the `ServiceNotFoundError` raised inside the body's `try`
is re-caught by the body's own `except Exception` and surfaces as a plain
`ServiceError` — the generic, unrelated error kind.  This contradicts the
claim, the method's docstring and the repository's own
`test_get_not_found`. -/
theorem C1_get_absent_surfaces_generic_error :
    absServiceGet (ρ := Nat) (.ok none) = .error (.service .error) ∧
    absServiceGet (ρ := Nat) (.ok none) ≠ .error (.service .notFound) := by
  constructor <;> decide

/-- C2 counterexample: creating a book whose second (cover) upload fails
after the pdf upload succeeded leaves the pdf object in storage — its
key `1/book.pdf` is still retrievable — even though the Book row is
deleted; and the subsequent service-level get surfaces the generic Error
kind, not NotFound.  This refutes the claim that the first uploaded
object's storage key is no longer retrievable. -/
theorem C2_counterexample :
    (bookServiceCreate demoEmptyState 1 10 11 demoPdf demoCover none
      (some .operation)).2.s3Objects = ["1/book.pdf"] ∧
    s3Retrievable (bookServiceCreate demoEmptyState 1 10 11 demoPdf demoCover none
      (some .operation)).2 "1/book.pdf" = true ∧
    (bookServiceCreate demoEmptyState 1 10 11 demoPdf demoCover none
      (some .operation)).2.books = [] ∧
    bookServiceGet (ρ := Nat) (.ok (bookCrudGetById
      (bookServiceCreate demoEmptyState 1 10 11 demoPdf demoCover none
        (some .operation)).2 1)) = .error (.service .error) := by
  refine ⟨?_, ?_, ?_, ?_⟩ <;> decide

/-- C2 (amended): when the second of the two uploads fails with any
service exception kind, book creation deletes the already-created Book
row (the database cascade removes its BookFile rows), so the book is
absent from the persistence layer afterwards and service-level get fails
(with the generic Error kind); but no uploaded file is deleted: the first
uploaded object's storage key remains retrievable. -/
theorem C2_compensation_amended (st : SysState) (newId pdfFid coverFid : Nat)
    (pdf cover : PyFile) (k : SvcKind) :
    (bookServiceCreate st newId pdfFid coverFid pdf cover none (some k)).1 =
      .error (bookCreateWrapKind k) ∧
    newId ∉ (bookServiceCreate st newId pdfFid coverFid pdf cover none
      (some k)).2.books ∧
    bookCrudGetById (bookServiceCreate st newId pdfFid coverFid pdf cover none
      (some k)).2 newId = none ∧
    filesOf (bookServiceCreate st newId pdfFid coverFid pdf cover none
      (some k)).2 newId = [] ∧
    (bookServiceCreate st newId pdfFid coverFid pdf cover none
      (some k)).2.s3Objects = st.s3Objects ++ [createS3Key newId pdf.filename] ∧
    s3Retrievable (bookServiceCreate st newId pdfFid coverFid pdf cover none
      (some k)).2 (createS3Key newId pdf.filename) = true := by
  have hmem : newId ∈ st.books ++ [newId] := by simp
  have hred : bookServiceCreate st newId pdfFid coverFid pdf cover none (some k) =
      (.error (bookCreateWrapKind k),
       { books := (st.books ++ [newId]).filter fun b => b ≠ newId
         fileRows := (st.fileRows ++
           [FileRow.mk pdfFid newId (createS3Key newId pdf.filename)]).filter
             fun r => r.bookId ≠ newId
         s3Objects := st.s3Objects ++ [createS3Key newId pdf.filename] }) := by
    simp [bookServiceCreate, applyUploadEffect, bookCrudDelete, hmem]
  rw [hred]
  refine ⟨rfl, ?_, ?_, ?_, rfl, ?_⟩
  · simp [List.mem_filter]
  · simp [bookCrudGetById, List.mem_filter]
  · exact filter_bookId_eq_after_ne _ _
  · simp [s3Retrievable]

/-- C3 counterexample: `BookService.get_all` with limit 1001 neither
fails Validation nor skips the persistence query — it returns the query
result; and with a negative offset it fails, but with the generic Error
kind rather than Validation. -/
theorem C3_counterexample :
    bookServiceGetAll (ρ := Nat) (.ok [0]) 1001 0 = (.ok [0], true) ∧
    bookServiceGetAll (ρ := Nat) (.ok []) 100 (-1) =
      (.error (.service .error), false) := by
  constructor <;> decide

/-- C3 (amended): the generic `AbstractService.get_all` rejects
limit > 1000 and negative offsets with the Validation kind before any
persistence query; `BookService.get_all` instead rejects limit < 1 or
negative offsets before the query but surfaces the generic Error kind
(its decorator stack rewraps the Validation error), and it does not
reject limit > 1000: the query is issued and the result returned. -/
theorem C3_pagination_amended {ρ : Type} (crudRes : Except Exc (List ρ))
    (limit offset : Int) (rs : List ρ) :
    (1000 < limit → absServiceGetAll crudRes limit offset =
      (.error (.service .validation), false)) ∧
    (offset < 0 → absServiceGetAll crudRes limit offset =
      (.error (.service .validation), false)) ∧
    ((limit < 1 ∨ offset < 0) → bookServiceGetAll crudRes limit offset =
      (.error (.service .error), false)) ∧
    (1 ≤ limit → 0 ≤ offset → crudRes = .ok rs →
      bookServiceGetAll crudRes limit offset = (.ok rs, true)) := by
  refine ⟨?_, ?_, ?_, ?_⟩
  · intro h
    simp [absServiceGetAll, absGetAllBody, h, handle_service_errors, hseAux,
      isPassThroughSvc]
  · intro h
    by_cases hl : 1000 < limit <;>
      simp [absServiceGetAll, absGetAllBody, h, hl, handle_service_errors, hseAux,
        isPassThroughSvc]
  · intro h
    simp [bookServiceGetAll, bookGetAllBody, h, handle_service_errors, hseAux,
      handle_storage_service_errors, isPassThroughSvc]
  · intro h1 h2 h3
    have hnl : ¬ (limit < 1 ∨ offset < 0) := by omega
    simp [bookServiceGetAll, bookGetAllBody, hnl, h3, handle_service_errors, hseAux,
      handle_storage_service_errors]

/-- C3 witness: the amended statement at concrete inputs. -/
theorem C3_pagination_amended_witness :
    absServiceGetAll (ρ := Nat) (.ok [0]) 1001 0 =
      (.error (.service .validation), false) ∧
    absServiceGetAll (ρ := Nat) (.ok [0]) 100 (-1) =
      (.error (.service .validation), false) ∧
    bookServiceGetAll (ρ := Nat) (.ok [0]) 100 (-1) =
      (.error (.service .error), false) ∧
    bookServiceGetAll (ρ := Nat) (.ok [0]) 1001 0 = (.ok [0], true) :=
  ⟨(C3_pagination_amended (.ok [0]) 1001 0 [0]).1 (by decide),
   (C3_pagination_amended (.ok [0]) 100 (-1) [0]).2.1 (by decide),
   (C3_pagination_amended (.ok [0]) 100 (-1) [0]).2.2.1 (Or.inr (by decide)),
   (C3_pagination_amended (.ok [0]) 1001 0 [0]).2.2.2 (by decide) (by decide) rfl⟩

/-- C4: with a unique name column, the inherited `AbstractService.create`
does yield the Integrity kind on the second create of a duplicate name;
but `AuthorService.create_with_validation` — the dedicated creation path,
whose docstring promises `ServiceIntegrityError` for an existing author —
surfaces the plain generic `ServiceError` instead, because the
`ServiceIntegrityError` it raises inside its `try` block is re-caught by
its own `except Exception` and rewrapped (and its success path returns
`None`, lacking a `return`). -/
theorem C4_duplicate_name_kinds :
    absServiceCreateUnique [] "Test Author" =
      .ok ("Test Author", ["Test Author"]) ∧
    absServiceCreateUnique ["Test Author"] "Test Author" =
      .error (.service .integrity) ∧
    authorCreateWithValidation [] "Test Author" = .ok none ∧
    authorCreateWithValidation ["Test Author"] "Test Author" =
      .error (.service .error) ∧
    authorCreateWithValidation ["Test Author"] "Test Author" ≠
      .error (.service .integrity) := by
  refine ⟨?_, ?_, ?_, ?_, ?_⟩ <;> decide

/-- C5 counterexample: a Connection-class failure (an `OperationalError`
whose message does not mention a deadlock) is not retried at all under
bound 1 — the wrapped function runs exactly once, with no backoff sleep,
before `CRUDConnectionError` is surfaced; the claim would require two
invocations with one sleep. -/
theorem C5_counterexample :
    (handle_db_errors 1 (fun _ =>
      (.error (.operationalError "connection refused") : Except DbExc Nat))) =
      (.error .connection, ⟨1, 1, []⟩) ∧
    (handle_db_errors 1 (fun _ =>
      (.error (.operationalError "connection refused") : Except DbExc Nat))).2.calls ≠
      1 + 1 := by
  constructor <;> decide

/-- C5 (amended): a Connection-class failure is retried up to the
configured bound with linear backoff (base delay times the attempt
number) before being surfaced as the Connection kind only when its
message contains "deadlock"; a Connection-class failure without
"deadlock" is surfaced as the Connection kind immediately after a
rollback, without retry; and every other failure kind rolls back and
propagates immediately, translated to its own kind. -/
theorem C5_retry_amended {α : Type} (maxRetries : Nat)
    (body : Nat → Except DbExc α) (msg : String) :
    ((containsDeadlock msg = true) →
      (∀ n, body n = .error (.operationalError msg)) →
      handle_db_errors maxRetries body =
        (.error .connection,
         ⟨maxRetries + 1, maxRetries + 1,
          (List.range maxRetries).map fun i => i + 1⟩)) ∧
    ((containsDeadlock msg = false) → body 0 = .error (.operationalError msg) →
      handle_db_errors maxRetries body = (.error .connection, ⟨1, 1, []⟩)) ∧
    (body 0 = .error .noResultFound →
      handle_db_errors maxRetries body = (.error .notFound, ⟨1, 1, []⟩)) ∧
    (body 0 = .error .multipleResultsFound →
      handle_db_errors maxRetries body = (.error .multipleResults, ⟨1, 1, []⟩)) ∧
    (∀ m, body 0 = .error (.integrityError m) →
      handle_db_errors maxRetries body = (.error .integrity, ⟨1, 1, []⟩)) ∧
    (∀ m, body 0 = .error (.sqlalchemyError m) →
      handle_db_errors maxRetries body = (.error .operation, ⟨1, 1, []⟩)) ∧
    (∀ m, body 0 = .error (.otherError m) →
      handle_db_errors maxRetries body = (.error .operation, ⟨1, 1, []⟩)) := by
  refine ⟨?_, ?_, ?_, ?_, ?_, ?_, ?_⟩
  · intro hd hb
    unfold handle_db_errors
    rw [hdbAux_deadlock_run maxRetries body msg hd hb maxRetries le_rfl 0 0 []]
    simp
  · intro hd hb
    cases maxRetries with
    | zero => simp [handle_db_errors, hdbAux, hb]
    | succ n =>
      rw [handle_db_errors, hdbAux]
      simp [Nat.sub_self, hb, hd]
  · intro hb
    cases maxRetries with
    | zero => simp [handle_db_errors, hdbAux, hb]
    | succ n =>
      rw [handle_db_errors, hdbAux]
      simp [Nat.sub_self, hb]
  · intro hb
    cases maxRetries with
    | zero => simp [handle_db_errors, hdbAux, hb]
    | succ n =>
      rw [handle_db_errors, hdbAux]
      simp [Nat.sub_self, hb]
  · intro m hb
    cases maxRetries with
    | zero => simp [handle_db_errors, hdbAux, hb]
    | succ n =>
      rw [handle_db_errors, hdbAux]
      simp [Nat.sub_self, hb]
  · intro m hb
    cases maxRetries with
    | zero => simp [handle_db_errors, hdbAux, hb]
    | succ n =>
      rw [handle_db_errors, hdbAux]
      simp [Nat.sub_self, hb]
  · intro m hb
    cases maxRetries with
    | zero => simp [handle_db_errors, hdbAux, hb]
    | succ n =>
      rw [handle_db_errors, hdbAux]
      simp [Nat.sub_self, hb]

/-- C5 witness: the amended statement at concrete inputs — a persistent
deadlock message under bound 3 runs 4 attempts with sleeps 1, 2, 3; a
non-deadlock connection failure and an integrity failure under bound 1
run exactly once. -/
theorem C5_retry_amended_witness :
    handle_db_errors 3 (fun _ =>
      (.error (.operationalError "deadlock detected") : Except DbExc Nat)) =
      (.error .connection, ⟨4, 4, [1, 2, 3]⟩) ∧
    handle_db_errors 1 (fun _ =>
      (.error (.operationalError "connection refused") : Except DbExc Nat)) =
      (.error .connection, ⟨1, 1, []⟩) ∧
    handle_db_errors 1 (fun _ =>
      (.error (.integrityError "unique constraint") : Except DbExc Nat)) =
      (.error .integrity, ⟨1, 1, []⟩) :=
  ⟨(C5_retry_amended 3 _ "deadlock detected").1 (by decide) (fun _ => rfl),
   (C5_retry_amended 1 _ "connection refused").2.1 (by decide) rfl,
   (C5_retry_amended 1 _ "unique constraint").2.2.2.2.1 "unique constraint" rfl⟩

/-- C6: under the storage error boundary with retry bound 3, a body that
fails with the builtin connection error on its first two attempts and
succeeds on the third returns the successful result; the full service
decorator stack above it observes no error; and a body failing on all
attempts is surfaced as the retryable `StorageConnectionError` kind. -/
theorem C6_storage_retry_bound (α : Type) (r : α) :
    handle_storage_errors 3 (fun n => if n < 2 then .error .connError else .ok r) =
      .ok r ∧
    handle_service_errors 1 (fun _ => handle_storage_service_errors (liftStorage
      (handle_storage_errors 3
        (fun n => if n < 2 then .error .connError else .ok r)))) = .ok r ∧
    handle_storage_errors 3 (fun _ => (.error .connError : Except BotoExc α)) =
      .error .connection := by
  refine ⟨rfl, rfl, rfl⟩

/-- C7: the book upload helper rejects any file whose headers contain a
non-ASCII character in a key or value with the Validation kind before any
storage upload call is issued; when every header pair is ASCII, exactly
one storage call is issued and its metadata is the transliterated header
map. -/
theorem C7_ascii_metadata (mime : String) (file : PyFile) (s3Key : String)
    (uploadOk : Bool) :
    ((file.headers.all fun kv => asciiPair kv.1 kv.2) = false →
      bookUploadFile mime file s3Key uploadOk =
        (.error (.service .validation), [])) ∧
    ((file.headers.all fun kv => asciiPair kv.1 kv.2) = true →
      (bookUploadFile mime file s3Key uploadOk).2 =
        [{ file_key := s3Key, content_type := mime,
           metadata := translit_dict file.headers }]) := by
  constructor
  · intro h
    simp [bookUploadFile, h]
  · intro h
    cases uploadOk <;> simp [bookUploadFile, h]

/-- C7 witness: a Cyrillic header value is rejected with Validation and
no storage call; an ASCII header map reaches the storage call
transliterated (here unchanged). -/
theorem C7_ascii_metadata_witness :
    ((([("x-author", "Иван")] : List (String × String)).all
      fun kv => asciiPair kv.1 kv.2) = false) ∧
    bookUploadFile "application/pdf" ⟨"b.pdf", "c", 1, [("x-author", "Иван")]⟩
      "1/b.pdf" true = (.error (.service .validation), []) ∧
    (bookUploadFile "application/pdf" ⟨"b.pdf", "c", 1, [("x-author", "Ivan")]⟩
      "1/b.pdf" true).2 =
      [{ file_key := "1/b.pdf", content_type := "application/pdf",
         metadata := [("x-author", "Ivan")] }] :=
  ⟨by decide,
   (C7_ascii_metadata "application/pdf" ⟨"b.pdf", "c", 1, [("x-author", "Иван")]⟩
     "1/b.pdf" true).1 (by decide),
   (C7_ascii_metadata "application/pdf" ⟨"b.pdf", "c", 1, [("x-author", "Ivan")]⟩
     "1/b.pdf" true).2 (by decide)⟩

/-- C8: the persistence-layer partial update applies exactly the
explicitly-set fields: the stored row becomes the old row with only the
payload's columns overwritten, a column absent from the payload keeps its
value, a column present in the payload takes the payload's value, and
every other entity is untouched. -/
theorem C8_partial_update (store : Nat → Option Row) (id : Nat) (row upd : Row)
    (hrow : store id = some row) :
    (crudUpdate store id upd).1 = some (applyUpdate row upd) ∧
    (crudUpdate store id upd).2 id = some (applyUpdate row upd) ∧
    (∀ f, upd.lookup f = none →
      (applyUpdate row upd).lookup f = row.lookup f) ∧
    (∀ f w, upd.lookup f = some w → (row.lookup f).isSome →
      (applyUpdate row upd).lookup f = some w) ∧
    (∀ j, j ≠ id → (crudUpdate store id upd).2 j = store j) := by
  refine ⟨?_, ?_, ?_, ?_, ?_⟩
  · simp [crudUpdate, hrow]
  · simp [crudUpdate, hrow]
  · intro f h
    exact lookup_applyUpdate_of_unset row upd f h
  · intro f w hu hr
    exact lookup_applyUpdate_of_set row upd f w hu hr
  · intro j hj
    simp [crudUpdate, hrow, hj]

/-- C8 witness: the spec's example — an entity with A = 1 and B = 2
updated with only B = 3 set ends with A = 1 and B = 3. -/
theorem C8_partial_update_witness :
    demoRowStore 1 = some [("A", 1), ("B", 2)] ∧
    (crudUpdate demoRowStore 1 [("B", 3)]).2 1 = some [("A", 1), ("B", 3)] :=
  ⟨rfl,
   (C8_partial_update demoRowStore 1 [("A", 1), ("B", 2)] [("B", 3)] rfl).2.1⟩

/-- C9: deleting a book whose id is present issues one storage delete per
stored file key and one BookFile row delete per file, all strictly before
the Book row delete event, which closes the trace; afterwards no BookFile
row of the book remains and the Book row is gone. -/
theorem C9_cascade_delete_order (st : SysState) (id : Nat)
    (hmem : id ∈ st.books) :
    ∃ pre, (bookServiceDelete st id).2.2 = pre ++ [DelEvent.bookRowDel id] ∧
      (∀ f ∈ filesOf st id, DelEvent.s3Del f.storageKey ∈ pre ∧
        DelEvent.fileRowDel f.fid ∈ pre) ∧
      (bookServiceDelete st id).1 = .ok () ∧
      filesOf (bookServiceDelete st id).2.1 id = [] ∧
      id ∉ (bookServiceDelete st id).2.1.books := by
  have hget : bookCrudGetById st id = some id := by simp [bookCrudGetById, hmem]
  refine ⟨(filesOf st id).map (fun f => DelEvent.s3Del f.storageKey) ++
    (filesOf st id).map (fun f => DelEvent.fileRowDel f.fid), ?_, ?_, ?_, ?_, ?_⟩
  · simp [bookServiceDelete, hget]
  · intro f hf
    constructor
    · exact List.mem_append_left _ (List.mem_map_of_mem _ hf)
    · exact List.mem_append_right _ (List.mem_map_of_mem _ hf)
  · simp [bookServiceDelete, hget]
  · simp only [bookServiceDelete, hget, bookCrudDelete, filesOf]
    simp only [hmem, if_pos]
    exact filter_bookId_eq_after_ne _ _
  · simp [bookServiceDelete, hget, bookCrudDelete, hmem, List.mem_filter]

/-- C9 witness: the ordering property at a book with two stored files. -/
theorem C9_cascade_delete_order_witness :
    7 ∈ demoDeleteState.books ∧
    (∃ pre, (bookServiceDelete demoDeleteState 7).2.2 =
        pre ++ [DelEvent.bookRowDel 7] ∧
      (∀ f ∈ filesOf demoDeleteState 7, DelEvent.s3Del f.storageKey ∈ pre ∧
        DelEvent.fileRowDel f.fid ∈ pre) ∧
      (bookServiceDelete demoDeleteState 7).1 = .ok () ∧
      filesOf (bookServiceDelete demoDeleteState 7).2.1 7 = [] ∧
      7 ∉ (bookServiceDelete demoDeleteState 7).2.1.books) :=
  ⟨by decide, C9_cascade_delete_order demoDeleteState 7 (by decide)⟩

/-- C10: the legacy `S3Client.upload_file` collects the supplied content
type and metadata into `extra_args` but sends a put request containing
only Body, Bucket and Key — neither ContentType nor Metadata is passed to
the store — and `BookStorage.upload_book_file`, which delegates to it
with a guessed MIME type, therefore sends the same three-argument
request under its `books/{book_id}/{file_type}.{ext}` key. -/
theorem C10_put_request_drops_extra_args (bucket fileObj s3Key c : String)
    (m : List (String × String)) (bookId fileType origName : String) :
    (s3ClientUploadFile bucket fileObj s3Key (some c) (some m)).extraArgs =
      [("ContentType", S3Param.contentType c), ("Metadata", S3Param.metadata m)] ∧
    (s3ClientUploadFile bucket fileObj s3Key (some c) (some m)).putCall =
      [("Body", S3Param.body fileObj), ("Bucket", S3Param.bucket bucket),
       ("Key", S3Param.key s3Key)] ∧
    (s3ClientUploadFile bucket fileObj s3Key (some c) (some m)).putCall.map
      Prod.fst = ["Body", "Bucket", "Key"] ∧
    "ContentType" ∉ (s3ClientUploadFile bucket fileObj s3Key (some c)
      (some m)).putCall.map Prod.fst ∧
    "Metadata" ∉ (s3ClientUploadFile bucket fileObj s3Key (some c)
      (some m)).putCall.map Prod.fst ∧
    (bookStorageUploadBookFile bucket bookId fileType fileObj origName
      (some c)).putCall =
      [("Body", S3Param.body fileObj), ("Bucket", S3Param.bucket bucket),
       ("Key", S3Param.key ("books/" ++ bookId ++ "/" ++ fileType ++ "." ++
         ((origName.splitOn ".").getLastD "").toLower))] := by
  refine ⟨rfl, rfl, rfl, ?_, ?_, rfl⟩ <;>
    · show _ ∉ ["Body", "Bucket", "Key"]
      decide

end LibSys
